import Mathlib

/-
  Verification development for the Solidly (sollidly-mvp) text-capture and
  hotkey-coordination core.

  Shallow embedding of:
    core/text_monitor.py           (TextMonitor)
    core/text_monitor_improved.py  (ImprovedTextMonitor)
    core/keyboard_hook.py          (KeyboardHook)
    core/keyboard_hook_improved.py (ImprovedKeyboardHook)
    ui/overlay_window.py           (OverlayWindow)
    config.py                      (configuration constants)

  OS interactions (clipboard, SendMessage, UI Automation, pynput events,
  win32 window styles, tkinter canvas) are modelled by explicit environment
  records; an operation that Python would perform with a possible exception
  is modelled with an Except value or an explicit "raises" flag, and the
  `try/except` structure of the source is reproduced in the control flow.
-/

namespace Solidly

/-! ### String helpers

Python's `in` operator on strings is contiguous-substring containment and
`str.lower()` is per-character lowercasing (the keywords involved are ASCII
or Korean, so per-character `Char.toLower` matches Python's behaviour on
every character that can occur in a match). -/

/-- `listPrefixOf pat l` is true when `pat` occurs at the start of `l`. -/
def listPrefixOf : List Char → List Char → Bool
  | [], _ => true
  | _ :: _, [] => false
  | a :: as, b :: bs => a = b && listPrefixOf as bs

/-- `listSubstr pat l` is true when `pat` occurs contiguously inside `l`
(Python's `pat in l`). -/
def listSubstr (pat : List Char) : List Char → Bool
  | [] => pat.isEmpty
  | c :: rest => listPrefixOf pat (c :: rest) || listSubstr pat rest

/-- Python `pat in s` on strings. -/
def strContains (s pat : String) : Bool :=
  listSubstr pat.toList s.toList

/-- Python `s.lower()` (per-character). -/
def lowerStr (s : String) : String :=
  String.mk (s.toList.map Char.toLower)

/-! ### Foreground window classifier

`TextMonitor.is_text_editor` / `ImprovedTextMonitor.is_text_editor`
(identical keyword lists, identical logic). `get_active_window` can return
`None` (on exception), so the classifier takes an `Option WindowInfo`. -/

/-- WindowInfo: the dictionary returned by `get_active_window`. -/
structure WindowInfo where
  hwnd : Nat
  title : String
  class_name : String
deriving DecidableEq, Repr

/-- The keyword list from `is_text_editor` (both monitor modules). -/
def editor_keywords : List String :=
  ["한글", "hwp", "word", "메모장", "notepad",
   "sublime", "vscode", "code", "atom", "notepad++", "editplus"]

/-- `is_text_editor` from `core/text_monitor_improved.py` lines 196-222
(and identically `core/text_monitor.py` lines 147-182): lowercase the title
and class name, then scan the keyword list for a substring hit in either. -/
def is_text_editor : Option WindowInfo → Bool
  | none => false
  | some w =>
    let title := lowerStr w.title
    let cls := lowerStr w.class_name
    editor_keywords.any fun keyword =>
      strContains title keyword || strContains cls keyword

/-! ### Text capture strategy chain (`core/text_monitor_improved.py`)

Each OS interaction is an oracle: `Except Unit α` is `.error ()` when the
corresponding Python call raises, `.ok v` when it returns `v`. -/

/-- Oracle for one `capture_text_via_uiautomation` call: COM setup
(`GetModule` / `CreateObject` / `ElementFromHandle`, whose failure lands in
the outer `except`), then the ValuePattern and TextPattern attempts, each
guarded by its own inner bare `except`. -/
structure UiaEnv where
  comInit : Except Unit Unit
  valuePattern : Except Unit String
  textPattern : Except Unit String
deriving Repr

/-- Oracle for one `capture_text_smart` call: the `SendMessageW`
(WM_GETTEXT) outcome and the UI Automation oracle. -/
structure CaptureEnv where
  wm : Except Unit String
  uia : UiaEnv
deriving Repr

/-- `ImprovedTextMonitor.capture_text_via_window_message` lines 84-123:
send WM_GETTEXT; on exception return ""; if the reported length is positive
return the buffer contents, else "". The oracle's `.ok t` carries the
buffer contents (truncated to the 64K bound by the OS), whose length is the
reported length. -/
def capture_text_via_window_message (wm : Except Unit String) : String :=
  match wm with
  | .error _ => ""
  | .ok t => if t.length > 0 then t else ""

/-- `ImprovedTextMonitor.capture_text_via_uiautomation` lines 125-168:
initialize COM (outer `except` yields ""), try ValuePattern (inner bare
`except: pass`), then TextPattern (inner bare `except: pass`), else "". -/
def capture_text_via_uiautomation (u : UiaEnv) : String :=
  match u.comInit with
  | .error _ => ""
  | .ok _ =>
    match u.valuePattern with
    | .ok t => t
    | .error _ =>
      match u.textPattern with
      | .ok t => t
      | .error _ => ""

/-- `ImprovedTextMonitor.capture_text_smart` lines 170-194: WM_GETTEXT
first, its result returned when truthy (non-empty); otherwise UI
Automation, its result returned when truthy; otherwise "". -/
def capture_text_smart (env : CaptureEnv) : String :=
  let text := capture_text_via_window_message env.wm
  if text ≠ "" then text
  else
    let text2 := capture_text_via_uiautomation env.uia
    if text2 ≠ "" then text2
    else ""

/-! ### Clipboard round-trip strategy (`core/text_monitor.py` lines 94-145)

`TextMonitor.capture_text_via_clipboard` runs, inside one outer
`try/except`, the sequence: backup clipboard (inner `except` → ""), clear
clipboard, Ctrl+A, Ctrl+C, read clipboard (inner `except` → ""), restore
clipboard, press Escape.  The restore sits in the `try` body — there is no
`finally` — so an exception in any step is caught by the outer `except`
and the function returns whatever `captured_text` holds, with the clipboard
in whatever state the completed steps left it. -/

/-- Which of the seven steps of `capture_text_via_clipboard` raise.  The
two `pyperclip.paste()` calls have their own inner `except`; the others
fall through to the outer `except`. -/
structure ClipStepOracle where
  backup_raises : Bool
  copy_empty_raises : Bool
  select_all_raises : Bool
  copy_key_raises : Bool
  read_raises : Bool
  restore_raises : Bool
  escape_raises : Bool
deriving DecidableEq, Repr

/-- `TextMonitor.capture_text_via_clipboard`, as a function of the initial
clipboard contents `clip0`, the text `editorText` that a successful
Ctrl+A/Ctrl+C places on the clipboard, and the per-step exception oracle.
Returns `(captured_text, final clipboard contents)`, tracing the source's
control flow step by step (the final `pyautogui.press` touches no state
the function observes, so its oracle field does not affect the result). -/
def capture_text_via_clipboard (clip0 editorText : String)
    (o : ClipStepOracle) : String × String :=
  let old_clipboard := if o.backup_raises then "" else clip0
  if o.copy_empty_raises then
    ("", clip0)
  else
    -- clipboard is now ""
    if o.select_all_raises then ("", "")
    else if o.copy_key_raises then ("", "")
    else
      -- Ctrl+A, Ctrl+C succeeded: clipboard now holds the editor text
      let captured_text := if o.read_raises then "" else editorText
      if o.restore_raises then (captured_text, editorText)
      else
        -- clipboard restored to the backup; Escape press changes nothing
        (captured_text, old_clipboard)

/-! ### Keyboard hook (`core/keyboard_hook.py`, `core/keyboard_hook_improved.py`)

pynput key objects: a `KeyCode` carries a character, the named keys are
fixed enumerated identifiers.  `_on_press` normalizes character keys to
lowercase before inserting into the pressed set. -/

/-- A pynput key as used by the hooks: a character key or one of the named
keys the parser knows. -/
inductive PKey where
  | charKey (c : Char)
  | alt
  | ctrl
  | shift
  | enter
  | esc
  | space
deriving DecidableEq, Repr

/-- The normalization both `on_press` handlers apply:
`keyboard.KeyCode.from_char(key.char.lower())` for character keys, named
keys unchanged. -/
def normalizeKey : PKey → PKey
  | .charKey c => .charKey c.toLower
  | k => k

/-- One key name from the configured chord lists, as parsed by
`KeyboardHook._parse_hotkey` / the pynput branch's `parse_hotkey`: the
named-key table, else `KeyCode.from_char` on a single-character name
(an unknown multi-character name is logged and skipped). -/
def parse_key_name (s : String) : Option PKey :=
  if s = "alt" then some .alt
  else if s = "ctrl" then some .ctrl
  else if s = "shift" then some .shift
  else if s = "enter" then some .enter
  else if s = "esc" then some .esc
  else if s = "space" then some .space
  else
    match s.toList with
    | [c] => some (.charKey c)
    | _ => none

/-- `_parse_hotkey`: lowercase each configured name, parse it, collect the
successes into a set. -/
def parse_hotkey (keys : List String) : Finset PKey :=
  keys.foldl
    (fun acc k =>
      match parse_key_name (lowerStr k) with
      | some p => insert p acc
      | none => acc)
    ∅

/-- `config.HOTKEYS["toggle_menu"]`. -/
def HOTKEYS_toggle_menu : List String := ["ctrl", "shift", "s"]

/-- `config.HOTKEYS["exit_app"]`. -/
def HOTKEYS_exit_app : List String := ["ctrl", "shift", "q"]

/-- The toggle chord as the hooks build it at startup. -/
def toggleCombo : Finset PKey := parse_hotkey HOTKEYS_toggle_menu

/-- The exit chord as the hooks build it at startup. -/
def exitCombo : Finset PKey := parse_hotkey HOTKEYS_exit_app

namespace KeyboardHook

/-- `KeyboardHook._on_press` lines 95-124.  `cb`/`ecb` record whether
`set_callback`/`set_exit_callback` have been called; the pressed-set clear
sits inside the `if self.callback:` branch in this module.  Returns the new
pressed set and whether the toggle / exit callback was dispatched. -/
def on_press (cb ecb : Bool) (hotkey_combo exit_combo : Finset PKey)
    (pressed : Finset PKey) (k : PKey) : Finset PKey × Bool × Bool :=
  let kn := normalizeKey k
  let p1 := insert kn pressed
  let step1 : Finset PKey × Bool :=
    if hotkey_combo ⊆ p1 then
      (if cb then ((∅ : Finset PKey), true) else (p1, false))
    else (p1, false)
  let step2 : Finset PKey × Bool :=
    if exit_combo ⊆ step1.1 then
      (if ecb then ((∅ : Finset PKey), true) else (step1.1, false))
    else (step1.1, false)
  (step2.1, step1.2, step2.2)

/-- `KeyboardHook._on_release` lines 126-142: normalize, remove if present
(a miss is not an error). -/
def on_release (pressed : Finset PKey) (k : PKey) : Finset PKey :=
  pressed.erase (normalizeKey k)

end KeyboardHook

namespace ImprovedKeyboardHook

/-- `ImprovedKeyboardHook._start_with_pynput.on_press` lines 161-181: same
shape, but here `pressed_keys.clear()` sits directly under the subset test,
outside the callback null-check. -/
def on_press (cb ecb : Bool) (toggle_keys exit_keys : Finset PKey)
    (pressed : Finset PKey) (k : PKey) : Finset PKey × Bool × Bool :=
  let kn := normalizeKey k
  let p1 := insert kn pressed
  let fire_t := decide (toggle_keys ⊆ p1) && cb
  let p2 := if toggle_keys ⊆ p1 then (∅ : Finset PKey) else p1
  let fire_e := decide (exit_keys ⊆ p2) && ecb
  let p3 := if exit_keys ⊆ p2 then (∅ : Finset PKey) else p2
  (p3, fire_t, fire_e)

/-- `ImprovedKeyboardHook._start_with_pynput.on_release` lines 183-190. -/
def on_release (pressed : Finset PKey) (k : PKey) : Finset PKey :=
  pressed.erase (normalizeKey k)

end ImprovedKeyboardHook

/-! ### Debounce state and monitoring tick (`core/text_monitor_improved.py`)

Time is modelled in exact integer milliseconds: the source's float
constants 0.5 s, 2.0 s and 3.0 s are exactly 500, 2000 and 3000 ms, and
the comparisons the code performs are order-isomorphic under the
seconds-to-milliseconds scaling. -/

/-- `config.TEXT_MONITOR["check_interval"]` (0.5 s, in ms). -/
def check_interval : ℤ := 500

/-- `config.TEXT_MONITOR["debounce_time"]` (2.0 s, in ms). -/
def debounce_time : ℤ := 2000

/-- `ImprovedTextMonitor.typing_timeout` (hardcoded 3.0 s in `__init__`,
in ms). -/
def typing_timeout : ℤ := 3000

/-- `ImprovedTextMonitor.detect_typing` lines 224-237: typing iff the last
recorded change is more recent than `typing_timeout`. -/
def detect_typing (last_change_time now : ℤ) : Bool :=
  decide (now - last_change_time < typing_timeout)

/-- The monitor state the loop owns: `last_text`, `last_cursor_pos`,
`last_change_time`. -/
structure MonState where
  last_text : String
  last_cursor_pos : Int × Int
  last_change_time : ℤ
deriving Repr

/-- Environment of one tick of `_monitoring_loop`: the foreground window
(`none` when `get_active_window` fails or finds nothing), the pointer
position, the current time, and the capture-chain oracle for this tick. -/
structure TickEnv where
  window : Option WindowInfo
  cursor_pos : Int × Int
  now : ℤ
  capture : CaptureEnv

/-- Callbacks a tick can dispatch. -/
inductive MonEvent where
  | cursorChanged (x y : Int)
  | textChanged (t : String)
deriving DecidableEq, Repr

/-- One iteration of `ImprovedTextMonitor._monitoring_loop` lines 251-285
(body of the `while`, with both registered callbacks present).  Returns the
updated state, the callbacks fired this tick, and whether the capture chain
was invoked (i.e. execution reached the `capture_text_smart` call on line
272).  The source reads `time.time()` twice a few microseconds apart; both
reads are modelled by the single value `env.now`. -/
def tick (st : MonState) (env : TickEnv) : MonState × List MonEvent × Bool :=
  match env.window with
  | none => (st, [], false)
  | some w =>
    if is_text_editor (some w) then
      let stepCursor : MonState × List MonEvent :=
        if env.cursor_pos ≠ st.last_cursor_pos then
          ({ st with last_cursor_pos := env.cursor_pos },
           [MonEvent.cursorChanged env.cursor_pos.1 env.cursor_pos.2])
        else (st, [])
      let st1 := stepCursor.1
      let evs1 := stepCursor.2
      if !detect_typing st1.last_change_time env.now then
        if env.now - st1.last_change_time ≥ debounce_time then
          let captured_text := capture_text_smart env.capture
          if captured_text ≠ "" ∧ captured_text ≠ st1.last_text then
            ({ st1 with last_text := captured_text, last_change_time := env.now },
             evs1 ++ [MonEvent.textChanged captured_text], true)
          else (st1, evs1, true)
        else (st1, evs1, false)
      else (st1, evs1, false)
    else (st, [], false)

/-- `ImprovedTextMonitor.get_last_text` lines 306-308. -/
def get_last_text (st : MonState) : String :=
  st.last_text

/-- `ImprovedTextMonitor.force_capture` lines 310-312: the body is exactly
`return self.capture_text_smart(hwnd)` — it reads and writes none of the
monitor's recorded state and dispatches no callback, which the explicit
state-passing makes visible. -/
def force_capture (st : MonState) (env : CaptureEnv) :
    String × MonState × List MonEvent :=
  (capture_text_smart env, st, [])

/-- `TextMonitor.force_capture` lines 267-274: the body is exactly
`return self.capture_text_via_clipboard()`; it mutates the system
clipboard (second component of the pair) but none of the monitor state. -/
def TextMonitor_force_capture (st : MonState) (clip0 editorText : String)
    (o : ClipStepOracle) : (String × String) × MonState × List MonEvent :=
  (capture_text_via_clipboard clip0 editorText o, st, [])

/-! ### Lifecycle state machines (start/stop no-op behaviour, C8) -/

namespace KeyboardHook

/-- Lifecycle state of `KeyboardHook`: the `is_running` flag and the
`listener` field (`none` before the first `start`; `some subscribed`
afterwards, where `subscribed` records whether the pynput listener's OS
subscription is live). -/
structure LifeState where
  is_running : Bool
  listener : Option Bool
deriving DecidableEq, Repr

/-- `KeyboardHook.__init__`: not running, no listener. -/
def initLife : LifeState := { is_running := false, listener := none }

/-- `KeyboardHook.start` lines 144-156: early-return when already running,
else create and start a fresh listener. -/
def start (s : LifeState) : LifeState :=
  if s.is_running then s
  else { is_running := true, listener := some true }

/-- `KeyboardHook.stop` lines 158-163: if a listener exists, stop it and
clear the flag (stopping an already-stopped pynput listener is harmless);
with no listener, do nothing. -/
def stop (s : LifeState) : LifeState :=
  match s.listener with
  | none => s
  | some _ => { is_running := false, listener := some false }

/-- States reachable from `__init__` through `start`/`stop` calls. -/
inductive Reachable : LifeState → Prop where
  | init : Reachable initLife
  | start {s} : Reachable s → Reachable (start s)
  | stop {s} : Reachable s → Reachable (stop s)

end KeyboardHook

namespace ImprovedKeyboardHook

/-- Which hooking library `_detect_available_library` selected. -/
inductive HookMethod where
  | keyboardLib
  | pynputLib
deriving DecidableEq, Repr

/-- Lifecycle state of `ImprovedKeyboardHook`: the `is_running` flag, the
selected `hook_method`, and whether an OS-level subscription (registered
hotkeys or a pynput listener) is live. -/
structure LifeState where
  is_running : Bool
  hook_method : Option HookMethod
  subscribed : Bool
deriving DecidableEq, Repr

/-- `ImprovedKeyboardHook.start` lines 199-212: early-return when already
running; with no library, log and stay inactive; else activate via the
selected library (activation success assumed — registration failure is not
what C8 exercises, both of its cases return before this point). -/
def start (s : LifeState) : LifeState :=
  if s.is_running then s
  else
    match s.hook_method with
    | none => s
    | some _ => { s with is_running := true, subscribed := true }

/-- `ImprovedKeyboardHook.stop` lines 214-228: early-return when not
running, else release the subscription and clear the flag. -/
def stop (s : LifeState) : LifeState :=
  if !s.is_running then s
  else { s with is_running := false, subscribed := false }

end ImprovedKeyboardHook

namespace ImprovedTextMonitor

/-- Lifecycle state of the monitoring loop: the `is_monitoring` flag and
the `monitor_thread` field (`some ()` once a thread object exists). -/
structure LifeState where
  is_monitoring : Bool
  monitor_thread : Option Unit
deriving DecidableEq, Repr

/-- `ImprovedTextMonitor.start_monitoring` lines 289-297: early-return when
already monitoring, else raise the flag and spawn the loop thread.
(`TextMonitor.start_monitoring` lines 241-249 is textually identical.) -/
def start_monitoring (s : LifeState) : LifeState :=
  if s.is_monitoring then s
  else { is_monitoring := true, monitor_thread := some () }

/-- `ImprovedTextMonitor.stop_monitoring` lines 299-304: clear the flag
unconditionally and, if a thread object exists, join it with a bounded
timeout (which leaves the state fields unchanged).
(`TextMonitor.stop_monitoring` lines 251-256 is textually identical.) -/
def stop_monitoring (s : LifeState) : LifeState :=
  { s with is_monitoring := false }

end ImprovedTextMonitor

/-! ### Stop vs mid-flight tick (C7)

A small interleaving model of `_monitoring_loop` against `stop_monitoring`.
The loop body (lines 251-285) is a fixed sequence of steps; the
`is_monitoring` liveness flag is consulted only by the `while` condition at
the top, never between body steps.  `stop_monitoring` clears the flag and
joins the thread with `timeout=2.0`; `join` returns when the timeout
elapses even if the tick is still mid-flight (the capture step's
`SendMessageW` to an unresponsive foreign window can outlast any bound), so
the model lets `stop` return at any point. -/

namespace LoopModel

/-- The steps of one body iteration, in source order.  `cursorStep` and
`notifyStep` are the two points that invoke user callbacks. -/
inductive BodyStep where
  | getWindowStep
  | cursorStep
  | captureStep
  | notifyStep
  | sleepStep
deriving DecidableEq, Repr

/-- The loop body. -/
def body : List BodyStep :=
  [.getWindowStep, .cursorStep, .captureStep, .notifyStep, .sleepStep]

/-- Joint state of the loop thread and the stopping thread.  `pos = none`
means the loop is at the top, about to test `is_monitoring`; `some i` means
it is about to execute `body[i]`.  `callbacks_after_stop` counts callbacks
dispatched after `stop_monitoring` has returned. -/
structure Sys where
  is_monitoring : Bool
  pos : Option Nat
  exited : Bool
  stop_returned : Bool
  callbacks_after_stop : Nat
deriving DecidableEq, Repr

/-- State right after `start_monitoring`: flag up, loop at the top. -/
def startedSys : Sys :=
  { is_monitoring := true, pos := none, exited := false,
    stop_returned := false, callbacks_after_stop := 0 }

/-- One scheduler-chosen step of the loop thread: at the top, test the
flag (the only place the source tests it) and either enter the body or
exit; inside the body, run the current step and advance. -/
def loopStep (s : Sys) : Sys :=
  if s.exited then s
  else
    match s.pos with
    | none =>
      if s.is_monitoring then { s with pos := some 0 }
      else { s with exited := true }
    | some i =>
      let fired :=
        body.get? i = some BodyStep.cursorStep ∨
        body.get? i = some BodyStep.notifyStep
      let s1 :=
        if fired ∧ s.stop_returned then
          { s with callbacks_after_stop := s.callbacks_after_stop + 1 }
        else s
      if i + 1 < body.length then { s1 with pos := some (i + 1) }
      else { s1 with pos := none }

/-- `stop_monitoring` as observed by the loop: the flag goes down and — on
the schedules where the 2-second `join` timeout elapses first — stop
returns while the loop may still be mid-body. -/
def stopStep (s : Sys) : Sys :=
  { s with is_monitoring := false, stop_returned := true }

/-- A scheduler action: advance the loop thread or run `stop_monitoring`. -/
inductive Act where
  | tickStep
  | stopAct
deriving DecidableEq, Repr

/-- Run a schedule. -/
def run (s : Sys) : List Act → Sys
  | [] => s
  | a :: rest =>
    run (match a with | .tickStep => loopStep s | .stopAct => stopStep s) rest

end LoopModel

/-! ### Overlay window (`ui/overlay_window.py`) -/

namespace OverlayWindow

/-- The overlay visibility state: the WS_EX_TRANSPARENT click-through
style bit, the `is_menu_visible` flag, and the `-alpha` attribute. -/
structure MenuState where
  click_through : Bool
  menu_visible : Bool
  alpha : ℚ
deriving DecidableEq, Repr

/-- `OverlayWindow.__init__` lines 32-79: the constructor sets
WS_EX_TRANSPARENT (click-through on), no menu, alpha =
`config.OVERLAY["opacity"]` = 0.0. -/
def initMenu : MenuState :=
  { click_through := true, menu_visible := false, alpha := 0 }

/-- `OverlayWindow.show_menu` lines 124-151: disable click-through, raise
alpha to 0.1, show the circle menu, set `is_menu_visible`. -/
def show_menu (s : MenuState) : MenuState :=
  { s with click_through := false, alpha := 1 / 10, menu_visible := true }

/-- `OverlayWindow.hide_menu` lines 153-164: hide the menu, re-enable
click-through (unconditionally), restore alpha to the resting opacity 0.0,
clear `is_menu_visible`. -/
def hide_menu (s : MenuState) : MenuState :=
  { s with click_through := true, alpha := 0, menu_visible := false }

/-- `OverlayWindow.toggle_menu` lines 221-232. -/
def toggle_menu (s : MenuState) : MenuState :=
  if s.menu_visible then hide_menu s else show_menu s

/-- `OverlayWindow.display_suggestion` lines 245-294 (its effect on the
visibility state): alpha to 0.3 and click-through disabled. -/
def display_suggestion (s : MenuState) : MenuState :=
  { s with click_through := false, alpha := 3 / 10 }

/-- `OverlayWindow.clear_suggestion` lines 296-300: alpha back to resting,
click-through re-enabled. -/
def clear_suggestion (s : MenuState) : MenuState :=
  { s with click_through := true, alpha := 0 }

/-- The overlay operations C5 ranges over. -/
inductive MenuOp where
  | showOp
  | hideOp
  | toggleOp
  | suggestOp
deriving DecidableEq, Repr

/-- Apply one operation. -/
def applyOp (s : MenuState) : MenuOp → MenuState
  | .showOp => show_menu s
  | .hideOp => hide_menu s
  | .toggleOp => toggle_menu s
  | .suggestOp => display_suggestion s

/-- Run a sequence of overlay operations from a state. -/
def runOps (s : MenuState) (ops : List MenuOp) : MenuState :=
  ops.foldl applyOp s

/-! #### Error markers (`show_errors` / `clear_errors`, C10) -/

/-- A grammar error as `show_errors` consumes it (only its `type` label is
rendered). -/
structure GError where
  etype : String
deriving DecidableEq, Repr

/-- The tkinter canvas: a fresh-id allocator and the ids of the items
currently on the canvas (`create_line`/`create_text` return fresh ids,
`delete` removes an id). -/
structure CanvasState where
  nextId : Nat
  live : List Nat
deriving DecidableEq, Repr

/-- `canvas.create_line` / `canvas.create_text`: allocate a fresh id. -/
def canvas_create (c : CanvasState) : Nat × CanvasState :=
  (c.nextId, { nextId := c.nextId + 1, live := c.live ++ [c.nextId] })

/-- `canvas.delete(marker)`. -/
def canvas_delete (c : CanvasState) (id : Nat) : CanvasState :=
  { c with live := c.live.filter (fun m => m ≠ id) }

/-- The state `show_errors`/`clear_errors` touch: the canvas and the
`error_markers` id list. -/
structure ErrState where
  canvas : CanvasState
  error_markers : List Nat
deriving DecidableEq, Repr

/-- `OverlayWindow.clear_errors` lines 118-122: delete every recorded
marker from the canvas, then empty the list. -/
def clear_errors (st : ErrState) : ErrState :=
  { canvas := st.error_markers.foldl canvas_delete st.canvas,
    error_markers := [] }

/-- Render one error: `create_line` (the red underline) then `create_text`
(the error-type label), appending both ids to `error_markers`. -/
def renderError (st : ErrState) (_e : GError) : ErrState :=
  let line := canvas_create st.canvas
  let text := canvas_create line.2
  { canvas := text.2,
    error_markers := st.error_markers ++ [line.1, text.1] }

/-- `OverlayWindow.show_errors` lines 81-116: clear the previous markers,
then render `errors[:5]` — at most the first five errors, two canvas items
each. -/
def show_errors (st : ErrState) (errors : List GError) : ErrState :=
  (errors.take 5).foldl renderError (clear_errors st)

end OverlayWindow

/-! ### Sample inputs used by concrete instantiations -/

/-- A window the classifier accepts (title contains "notepad"). -/
def sampleEditorWindow : WindowInfo :=
  ⟨1, "notepad", "Notepad"⟩

/-- A capture oracle in which every strategy yields no text. -/
def sampleCaptureEnv : CaptureEnv :=
  ⟨Except.ok "", ⟨Except.ok (), Except.error (), Except.error ()⟩⟩

/-- Monitor state with a text change recorded at t = 0. -/
def monStateAt0 : MonState :=
  ⟨"", (0, 0), 0⟩

/-- Tick environment at time `t` ms with the editor window focused and the
pointer unmoved. -/
def tickEnvAt (t : ℤ) : TickEnv :=
  ⟨some sampleEditorWindow, (0, 0), t, sampleCaptureEnv⟩

/-!
## Theorems

### String helper lemmas
-/

theorem listPrefixOf_iff (pat l : List Char) :
    listPrefixOf pat l = true ↔ ∃ t, l = pat ++ t := by
  induction pat generalizing l with
  | nil => simp [listPrefixOf]
  | cons a as ih =>
    cases l with
    | nil => simp [listPrefixOf]
    | cons b bs =>
      simp only [listPrefixOf, Bool.and_eq_true, decide_eq_true_eq, ih,
        List.cons_append, List.cons.injEq]
      constructor
      · rintro ⟨rfl, t, rfl⟩
        exact ⟨t, rfl, rfl⟩
      · rintro ⟨t, rfl, rfl⟩
        exact ⟨rfl, t, rfl⟩

theorem listSubstr_iff (pat l : List Char) :
    listSubstr pat l = true ↔ ∃ pre post, l = pre ++ pat ++ post := by
  induction l with
  | nil =>
    simp only [listSubstr, List.isEmpty_iff]
    constructor
    · rintro rfl
      exact ⟨[], [], rfl⟩
    · rintro ⟨pre, post, h⟩
      rcases List.append_eq_nil.mp h.symm with ⟨h1, -⟩
      exact (List.append_eq_nil.mp h1).2
  | cons c rest ih =>
    simp only [listSubstr, Bool.or_eq_true, listPrefixOf_iff, ih]
    constructor
    · rintro (⟨t, ht⟩ | ⟨pre, post, hp⟩)
      · exact ⟨[], t, by simpa using ht⟩
      · exact ⟨c :: pre, post, by simp [hp]⟩
    · rintro ⟨pre, post, hp⟩
      cases pre with
      | nil =>
        exact Or.inl ⟨post, by simpa using hp⟩
      | cons p ps =>
        simp only [List.cons_append, List.cons.injEq] at hp
        exact Or.inr ⟨ps, post, hp.2⟩

/-!
### C1 — clipboard round-trip restore
-/

/-- C1: the claim says that after `capture_text_via_clipboard` completes,
the clipboard again equals the pre-existing content C on every exit path,
including exceptional ones.  Evaluating the embedded function at the
failing input refutes this: with pre-existing clipboard "hello", if the
select-all keystroke injection raises (after the clipboard was cleared at
step 2), the outer `except` swallows the exception and the function
returns with the clipboard left as "" — the restore on line 136 sits
inside the `try` body, not in a `finally`, so it is skipped.  The third
conjunct records that a failure of the read step alone (the case the
source's inner `except` does guard) does leave the clipboard restored. -/
theorem C1_clipboard_left_cleared_on_keystroke_failure :
    capture_text_via_clipboard "hello" "doc"
        ⟨false, false, true, false, false, false, false⟩ = ("", "") ∧
    ("" : String) ≠ "hello" ∧
    (capture_text_via_clipboard "hello" "doc"
        ⟨false, false, false, false, true, false, false⟩).2 = "hello" := by
  exact ⟨by decide, by decide, by decide⟩

/-!
### C2 — chord firing and pressed-set clearing
-/

/-- C2: with both callbacks registered, the two hook implementations agree
event-for-event; on a key-down the toggle callback is dispatched exactly
when the toggle chord is a subset of the pressed set after inserting the
normalized key, the exit callback exactly when the exit chord is a subset
of the pressed set as it stands at that test (i.e. after the clear a
toggle match performs); after any chord match the pressed set is empty;
and a chord of at least two keys can never fire on the first key-down
after a match (no re-fire while keys stay physically held). -/
theorem C2_chord_fires_iff_subset_then_clears
    (toggle exitc pressed : Finset PKey) (k : PKey) :
    KeyboardHook.on_press true true toggle exitc pressed k =
      ImprovedKeyboardHook.on_press true true toggle exitc pressed k
    ∧ ((KeyboardHook.on_press true true toggle exitc pressed k).2.1 = true ↔
        toggle ⊆ insert (normalizeKey k) pressed)
    ∧ ((KeyboardHook.on_press true true toggle exitc pressed k).2.2 = true ↔
        exitc ⊆ (if toggle ⊆ insert (normalizeKey k) pressed then (∅ : Finset PKey)
                 else insert (normalizeKey k) pressed))
    ∧ ((KeyboardHook.on_press true true toggle exitc pressed k).2.1 = true ∨
        (KeyboardHook.on_press true true toggle exitc pressed k).2.2 = true →
        (KeyboardHook.on_press true true toggle exitc pressed k).1 = ∅)
    ∧ (2 ≤ toggle.card →
        (KeyboardHook.on_press true true toggle exitc (∅ : Finset PKey) k).2.1 = false) := by
  refine ⟨?_, ?_, ?_, ?_, ?_⟩
  · unfold KeyboardHook.on_press ImprovedKeyboardHook.on_press
    by_cases h1 : toggle ⊆ insert (normalizeKey k) pressed <;>
      by_cases h2 : exitc ⊆ insert (normalizeKey k) pressed <;>
      by_cases h3 : exitc ⊆ (∅ : Finset PKey) <;>
      simp [h1, h2, h3]
  · unfold KeyboardHook.on_press
    by_cases h1 : toggle ⊆ insert (normalizeKey k) pressed <;> simp [h1]
  · unfold KeyboardHook.on_press
    by_cases h1 : toggle ⊆ insert (normalizeKey k) pressed <;>
      by_cases h2 : exitc ⊆ insert (normalizeKey k) pressed <;>
      by_cases h3 : exitc ⊆ (∅ : Finset PKey) <;>
      simp [h1, h2, h3]
  · unfold KeyboardHook.on_press
    by_cases h1 : toggle ⊆ insert (normalizeKey k) pressed <;>
      by_cases h2 : exitc ⊆ insert (normalizeKey k) pressed <;>
      by_cases h3 : exitc ⊆ (∅ : Finset PKey) <;>
      simp [h1, h2, h3]
  · intro hcard
    have hcond : ¬ (toggle = ∅ ∨ toggle = {normalizeKey k}) := by
      rintro (rfl | rfl) <;> simp at hcard
    unfold KeyboardHook.on_press
    simp [hcond]

/-- C2 witness: from pressed ctrl+shift, pressing S (normalized to s)
fires the toggle chord and leaves the pressed set empty. -/
theorem C2_chord_fires_iff_subset_then_clears_witness :
    (KeyboardHook.on_press true true toggleCombo exitCombo
        {PKey.ctrl, PKey.shift} (PKey.charKey 'S')).2.1 = true ∧
    (KeyboardHook.on_press true true toggleCombo exitCombo
        {PKey.ctrl, PKey.shift} (PKey.charKey 'S')).1 = ∅ := by
  have h := C2_chord_fires_iff_subset_then_clears toggleCombo exitCombo
      {PKey.ctrl, PKey.shift} (PKey.charKey 'S')
  have hfire := h.2.1.mpr (by decide)
  exact ⟨hfire, h.2.2.2.1 (Or.inl hfire)⟩

/-!
### C3 — capture chain ordering and error absorption
-/

/-- C3: the capture chain tries the window-messaging strategy first and,
when it yields non-empty text, returns that text with a result independent
of the UI Automation oracle (the accessibility strategy is never
consulted); a raising window-messaging call is treated as an empty result
and the chain proceeds to UI Automation; a raising COM setup, or both
patterns raising, make the UI Automation strategy itself yield ""; a
raising ValuePattern falls through to the TextPattern; and when no
strategy yields text the chain returns "". -/
theorem C3_capture_chain_first_nonempty_wins :
    (∀ (w : Except Unit String) (u u' : UiaEnv),
        capture_text_via_window_message w ≠ "" →
        capture_text_smart ⟨w, u⟩ = capture_text_via_window_message w ∧
        capture_text_smart ⟨w, u⟩ = capture_text_smart ⟨w, u'⟩)
    ∧ (∀ u : UiaEnv,
        capture_text_smart ⟨Except.error (), u⟩ = capture_text_via_uiautomation u)
    ∧ (∀ v t : Except Unit String,
        capture_text_via_uiautomation ⟨Except.error (), v, t⟩ = "")
    ∧ (∀ s : String,
        capture_text_via_uiautomation
          ⟨Except.ok (), Except.error (), Except.ok s⟩ = s)
    ∧ (∀ env : CaptureEnv,
        capture_text_via_window_message env.wm = "" →
        capture_text_via_uiautomation env.uia = "" →
        capture_text_smart env = "") := by
  refine ⟨?_, ?_, ?_, ?_, ?_⟩
  · intro w u u' hw
    constructor <;> simp [capture_text_smart, hw]
  · intro u
    by_cases hu : capture_text_via_uiautomation u = "" <;>
      simp [capture_text_smart, capture_text_via_window_message, hu]
  · intro v t
    rfl
  · intro s
    rfl
  · intro env hw hu
    simp [capture_text_smart, hw, hu]

/-- C3 witness: when WM_GETTEXT yields "hello", the chain returns it even
though the UI Automation oracle would raise. -/
theorem C3_capture_chain_first_nonempty_wins_witness :
    capture_text_smart
        ⟨Except.ok "hello", ⟨Except.ok (), Except.error (), Except.error ()⟩⟩ =
      "hello" := by
  have h := (C3_capture_chain_first_nonempty_wins.1 (Except.ok "hello")
      ⟨Except.ok (), Except.error (), Except.error ()⟩
      ⟨Except.ok (), Except.error (), Except.error ()⟩ (by decide)).1
  exact h.trans (by decide)

/-!
### C4 — debounce gating of capture attempts
-/

/-- The capture chain is invoked on a tick over a supported-editor window
exactly when `detect_typing` is false and the debounce threshold has
elapsed (lines 266-272 of `_monitoring_loop`); the cursor step never
touches `last_change_time`. -/
theorem tick_capture_invoked_eq (st : MonState) (env : TickEnv)
    (w : WindowInfo) (hw : env.window = some w)
    (hed : is_text_editor (some w) = true) :
    (tick st env).2.2 =
      ((!detect_typing st.last_change_time env.now) &&
        decide (env.now - st.last_change_time ≥ debounce_time)) := by
  unfold tick
  rw [hw]
  simp only [hed, if_true]
  by_cases hc : env.cursor_pos ≠ st.last_cursor_pos <;>
    by_cases ht : detect_typing st.last_change_time env.now <;>
    by_cases hd : env.now - st.last_change_time ≥ debounce_time <;>
    simp [hc, ht, hd] <;>
    split <;> rfl

/-- C4 counterexample: with the monitor's configured constants (tick
interval 500 ms, quiet period `debounce_time` = 2000 ms, and the hardcoded
`typing_timeout` = 3000 ms), a text change recorded at t = 0 produces NO
capture attempt at the tick at t = 2100 ms — `detect_typing` still reports
typing because 2100 − 0 < 3000 — contradicting the claim that the t = 2100
ms tick attempts capture. -/
theorem C4_counterexample_no_attempt_at_2100ms :
    (tick monStateAt0 (tickEnvAt 2100)).2.2 = false := by decide

/-- C4 amended: a text change recorded at t = 0 leads to no capture
attempt at the ticks at t = 1500 ms and t = 2100 ms; the first tick that
attempts capture is at t = 3000 ms.  In general, on a tick whose
foreground window is a supported editor, the loop attempts capture exactly
when the debounce state is quiet — meaning `now - lastChangeTime ≥
typing_timeout` (3000 ms), not merely the quiet period — AND `now -
lastChangeTime ≥ debounce_time` (2000 ms). -/
theorem C4_amended_capture_gate (st : MonState) (env : TickEnv)
    (w : WindowInfo) (hw : env.window = some w)
    (hed : is_text_editor (some w) = true) :
    ((tick st env).2.2 = true ↔
      typing_timeout ≤ env.now - st.last_change_time ∧
      debounce_time ≤ env.now - st.last_change_time)
    ∧ (tick monStateAt0 (tickEnvAt 1500)).2.2 = false
    ∧ (tick monStateAt0 (tickEnvAt 2100)).2.2 = false
    ∧ (tick monStateAt0 (tickEnvAt 3000)).2.2 = true := by
  refine ⟨?_, by decide, by decide, by decide⟩
  rw [tick_capture_invoked_eq st env w hw hed]
  simp [detect_typing, ge_iff_le, not_lt]

/-- C4 witness: at the t = 3000 ms tick both thresholds have elapsed, so
by the amended gate the capture chain is invoked. -/
theorem C4_amended_capture_gate_witness :
    (tick monStateAt0 (tickEnvAt 3000)).2.2 = true :=
  (C4_amended_capture_gate monStateAt0 (tickEnvAt 3000) sampleEditorWindow
      rfl (by decide)).1.mpr (by decide)

/-!
### C5 — overlay click-through vs menu visibility
-/

/-- The invariant the overlay operations preserve: a visible menu implies
click-through disabled. -/
def OverlayWindow.menuInv (s : OverlayWindow.MenuState) : Prop :=
  s.menu_visible = true → s.click_through = false

/-- Every overlay operation preserves `menuInv` (note `clear_suggestion`
is not among the modelled operations: its 3-second timer firing while the
menu is visible would re-enable click-through under a visible menu). -/
theorem OverlayWindow.applyOp_menuInv (s : OverlayWindow.MenuState)
    (op : OverlayWindow.MenuOp) (_h : OverlayWindow.menuInv s) :
    OverlayWindow.menuInv (OverlayWindow.applyOp s op) := by
  cases op with
  | showOp => intro _ ; rfl
  | hideOp => intro hm ; cases hm
  | toggleOp =>
    simp only [OverlayWindow.menuInv, OverlayWindow.applyOp,
      OverlayWindow.toggle_menu]
    split
    · intro hm ; cases hm
    · intro _ ; rfl
  | suggestOp => intro _ ; rfl

/-- `menuInv` holds along any run of overlay operations from a state
satisfying it. -/
theorem OverlayWindow.runOps_menuInv (ops : List OverlayWindow.MenuOp)
    (s : OverlayWindow.MenuState) (h : OverlayWindow.menuInv s) :
    OverlayWindow.menuInv (OverlayWindow.runOps s ops) := by
  induction ops generalizing s with
  | nil => exact h
  | cons op rest ih =>
    exact ih (OverlayWindow.applyOp s op) (OverlayWindow.applyOp_menuInv s op h)

/-- C5 counterexample: the claim says that after `hide_menu` the
click-through state returns to the value it had before the menu was shown.
Starting from the constructor state, `display_suggestion` disables
click-through; showing and then hiding the menu leaves click-through
enabled (true) — not the pre-menu value (false): `hide_menu`
unconditionally re-enables click-through. -/
theorem C5_counterexample_hide_menu_not_restoring :
    (OverlayWindow.display_suggestion OverlayWindow.initMenu).click_through =
      false ∧
    (OverlayWindow.hide_menu (OverlayWindow.show_menu
        (OverlayWindow.display_suggestion OverlayWindow.initMenu))).click_through =
      true ∧
    (OverlayWindow.hide_menu (OverlayWindow.show_menu
        (OverlayWindow.display_suggestion OverlayWindow.initMenu))).click_through ≠
      (OverlayWindow.display_suggestion OverlayWindow.initMenu).click_through := by
  exact ⟨rfl, rfl, by decide⟩

/-- C5 amended: immediately after `show_menu` click-through is false and
the menu-visible flag is true; `hide_menu` unconditionally re-enables
click-through (sets it true), which coincides with the pre-menu value
exactly in the normal case where click-through was enabled before the
menu was shown; and along every sequence of
`show_menu`/`hide_menu`/`toggle_menu`/`display_suggestion` operations from
the constructor state, whenever the menu-visible flag is true,
click-through is false. -/
theorem C5_amended_click_through_invariant :
    (∀ s : OverlayWindow.MenuState,
        (OverlayWindow.show_menu s).click_through = false ∧
        (OverlayWindow.show_menu s).menu_visible = true)
    ∧ (∀ s : OverlayWindow.MenuState,
        (OverlayWindow.hide_menu s).click_through = true)
    ∧ (∀ s : OverlayWindow.MenuState, s.click_through = true →
        (OverlayWindow.hide_menu (OverlayWindow.show_menu s)).click_through =
          s.click_through)
    ∧ (∀ ops : List OverlayWindow.MenuOp,
        (OverlayWindow.runOps OverlayWindow.initMenu ops).menu_visible = true →
        (OverlayWindow.runOps OverlayWindow.initMenu ops).click_through = false) := by
  refine ⟨fun s => ⟨rfl, rfl⟩, fun s => rfl, fun s h => by rw [h] ; rfl, ?_⟩
  intro ops
  exact OverlayWindow.runOps_menuInv ops OverlayWindow.initMenu (by intro h ; cases h)

/-- C5 witness: from the constructor state (click-through enabled),
show-then-hide restores click-through; and after the single operation
`show_menu` the invariant instance yields click-through disabled. -/
theorem C5_amended_click_through_invariant_witness :
    (OverlayWindow.hide_menu (OverlayWindow.show_menu OverlayWindow.initMenu)).click_through =
      OverlayWindow.initMenu.click_through ∧
    (OverlayWindow.runOps OverlayWindow.initMenu
        [OverlayWindow.MenuOp.showOp]).click_through = false := by
  exact ⟨C5_amended_click_through_invariant.2.2.1 OverlayWindow.initMenu rfl,
    C5_amended_click_through_invariant.2.2.2 [OverlayWindow.MenuOp.showOp] (by decide)⟩

/-!
### C6 — editor classification by keyword
-/

/-- C6: the classifier returns false on a missing window; on a present
window it returns true exactly when some configured keyword occurs as a
contiguous substring of the lowercased title or the lowercased class name
(so a keyword in any character case matches); and the classification is
invariant under any re-casing of title and class name. -/
theorem C6_is_text_editor_keyword_match :
    is_text_editor none = false
    ∧ (∀ w : WindowInfo,
        is_text_editor (some w) = true ↔
          ∃ k ∈ editor_keywords,
            (∃ pre post, (lowerStr w.title).toList = pre ++ k.toList ++ post) ∨
            (∃ pre post, (lowerStr w.class_name).toList = pre ++ k.toList ++ post))
    ∧ (∀ w w' : WindowInfo,
        lowerStr w.title = lowerStr w'.title →
        lowerStr w.class_name = lowerStr w'.class_name →
        is_text_editor (some w) = is_text_editor (some w')) := by
  refine ⟨rfl, ?_, ?_⟩
  · intro w
    simp only [is_text_editor, List.any_eq_true, Bool.or_eq_true, strContains,
      listSubstr_iff]
  · intro w w' h1 h2
    simp only [is_text_editor, h1, h2]

/-- C6 witness: a title containing "WORD" (uppercase) is classified as an
editor via the keyword "word"; and two differently-cased versions of the
same window classify identically. -/
theorem C6_is_text_editor_keyword_match_witness :
    is_text_editor (some ⟨0, "My WORD Document", "OpusApp"⟩) = true ∧
    is_text_editor (some ⟨7, "word", "x"⟩) =
      is_text_editor (some ⟨9, "WORD", "X"⟩) := by
  constructor
  · exact (C6_is_text_editor_keyword_match.2.1 ⟨0, "My WORD Document", "OpusApp"⟩).mpr
      ⟨"word", by decide,
        Or.inl ⟨"my ".toList, " document".toList, by decide⟩⟩
  · exact C6_is_text_editor_keyword_match.2.2 ⟨7, "word", "x"⟩ ⟨9, "WORD", "X"⟩
      (by decide) (by decide)

/-!
### C7 — callbacks after stop_monitoring
-/

/-- From any state in which the loop is at the top of an iteration and the
liveness flag is already down, no schedule fires another callback: the
next loop step exits the loop. -/
theorem LoopModel.run_no_callbacks_from_stopped_top
    (acts : List LoopModel.Act) (s : LoopModel.Sys)
    (hpos : s.pos = none) (hflag : s.is_monitoring = false) :
    (LoopModel.run s acts).callbacks_after_stop = s.callbacks_after_stop := by
  induction acts generalizing s with
  | nil => rfl
  | cons a rest ih =>
    cases a with
    | tickStep =>
      show (LoopModel.run (LoopModel.loopStep s) rest).callbacks_after_stop = _
      by_cases he : s.exited
      · rw [ih (LoopModel.loopStep s) (by simp [LoopModel.loopStep, he, hpos])
          (by simp [LoopModel.loopStep, he, hflag])]
        simp [LoopModel.loopStep, he]
      · rw [ih (LoopModel.loopStep s)
          (by simp [LoopModel.loopStep, he, hpos, hflag])
          (by simp [LoopModel.loopStep, he, hpos, hflag])]
        simp [LoopModel.loopStep, he, hpos, hflag]
    | stopAct =>
      show (LoopModel.run (LoopModel.stopStep s) rest).callbacks_after_stop = _
      rw [ih (LoopModel.stopStep s) (by simp [LoopModel.stopStep, hpos])
        (by simp [LoopModel.stopStep])]
      rfl

/-- C7 counterexample: the claim says no callback fires after
`stop_monitoring` returns because the loop re-checks its liveness flag
after each blocking step.  In the source the `is_monitoring` flag is
tested only by the `while` condition at the top of the loop
(`_monitoring_loop` line 251), and `stop_monitoring` joins the loop thread
with `timeout=2.0`, which elapses if a blocking step (e.g. the capture
call into an unresponsive foreign window) outlasts it.  Concrete schedule:
the loop passes the top test and runs up to the capture step, stop is
called and its join times out (stop returns), then the tick finishes —
the text-changed callback fires after stop returned. -/
theorem C7_counterexample_callback_after_stop :
    (LoopModel.run LoopModel.startedSys
        [LoopModel.Act.tickStep, LoopModel.Act.tickStep, LoopModel.Act.tickStep,
         LoopModel.Act.stopAct, LoopModel.Act.tickStep,
         LoopModel.Act.tickStep]).callbacks_after_stop = 1 := by
  decide

/-- C7 amended: `stop_monitoring` is idempotent, and if it returns while
the loop is at the top of an iteration (between ticks) no further
callbacks fire — but the liveness flag is checked only at the top of the
loop, so a tick that was mid-flight when stop was called and that
outlasts the 2-second join timeout can still fire callbacks after stop
returns. -/
theorem C7_amended_stop_idempotent_top_check (s : LoopModel.Sys)
    (acts : List LoopModel.Act)
    (hpos : s.pos = none) (hflag : s.is_monitoring = false) :
    LoopModel.stopStep (LoopModel.stopStep s) = LoopModel.stopStep s ∧
    (LoopModel.run s acts).callbacks_after_stop = s.callbacks_after_stop :=
  ⟨rfl, LoopModel.run_no_callbacks_from_stopped_top acts s hpos hflag⟩

/-- C7 witness: a concrete stopped-at-top state; two more loop steps fire
nothing, and stopping again changes nothing. -/
theorem C7_amended_stop_idempotent_top_check_witness :
    LoopModel.stopStep (LoopModel.stopStep
        (⟨false, none, false, true, 0⟩ : LoopModel.Sys)) =
      LoopModel.stopStep ⟨false, none, false, true, 0⟩ ∧
    (LoopModel.run (⟨false, none, false, true, 0⟩ : LoopModel.Sys)
        [LoopModel.Act.tickStep, LoopModel.Act.tickStep]).callbacks_after_stop = 0 := by
  have h := C7_amended_stop_idempotent_top_check
      ⟨false, none, false, true, 0⟩
      [LoopModel.Act.tickStep, LoopModel.Act.tickStep] rfl rfl
  exact ⟨h.1, h.2⟩

/-!
### C8 — start/stop idempotence of the lifecycle operations
-/

/-- The `KeyboardHook` lifecycle visits only three states: the constructor
state, the running state, and the stopped state. -/
theorem KeyboardHook.reachable_cases {s : KeyboardHook.LifeState}
    (h : KeyboardHook.Reachable s) :
    s = KeyboardHook.initLife ∨
    s = ⟨true, some true⟩ ∨
    s = ⟨false, some false⟩ := by
  induction h with
  | init => exact Or.inl rfl
  | start _ ih => rcases ih with rfl | rfl | rfl <;> simp [KeyboardHook.start, KeyboardHook.initLife]
  | stop _ ih => rcases ih with rfl | rfl | rfl <;> simp [KeyboardHook.stop, KeyboardHook.initLife]

/-- C8: on every reachable `KeyboardHook` state, `start` while running and
`stop` while not running leave the state (flag and OS subscription)
unchanged; the same holds for `ImprovedKeyboardHook.start`/`stop` and for
`start_monitoring`/`stop_monitoring`, on all states. -/
theorem C8_start_stop_noop :
    (∀ s : KeyboardHook.LifeState, KeyboardHook.Reachable s →
        (s.is_running = true → KeyboardHook.start s = s) ∧
        (s.is_running = false → KeyboardHook.stop s = s))
    ∧ (∀ s : ImprovedKeyboardHook.LifeState,
        (s.is_running = true → ImprovedKeyboardHook.start s = s) ∧
        (s.is_running = false → ImprovedKeyboardHook.stop s = s))
    ∧ (∀ s : ImprovedTextMonitor.LifeState,
        (s.is_monitoring = true → ImprovedTextMonitor.start_monitoring s = s) ∧
        (s.is_monitoring = false → ImprovedTextMonitor.stop_monitoring s = s)) := by
  refine ⟨?_, ?_, ?_⟩
  · intro s hs
    rcases KeyboardHook.reachable_cases hs with rfl | rfl | rfl <;> exact by decide
  · intro s
    constructor
    · intro h
      simp [ImprovedKeyboardHook.start, h]
    · intro h
      simp [ImprovedKeyboardHook.stop, h]
  · intro s
    constructor
    · intro h
      simp [ImprovedTextMonitor.start_monitoring, h]
    · intro h
      cases s with
      | mk m t =>
        simp only at h
        simp [ImprovedTextMonitor.stop_monitoring, h]

/-- C8 witness: stopping the never-started hook, re-starting the running
improved hook, and stopping the idle monitor all leave the state
unchanged. -/
theorem C8_start_stop_noop_witness :
    KeyboardHook.stop KeyboardHook.initLife = KeyboardHook.initLife ∧
    ImprovedKeyboardHook.start
        ⟨true, some ImprovedKeyboardHook.HookMethod.keyboardLib, true⟩ =
      ⟨true, some ImprovedKeyboardHook.HookMethod.keyboardLib, true⟩ ∧
    ImprovedTextMonitor.stop_monitoring ⟨false, none⟩ =
      (⟨false, none⟩ : ImprovedTextMonitor.LifeState) := by
  exact ⟨(C8_start_stop_noop.1 KeyboardHook.initLife KeyboardHook.Reachable.init).2 rfl,
    (C8_start_stop_noop.2.1 ⟨true, some ImprovedKeyboardHook.HookMethod.keyboardLib, true⟩).1 rfl,
    (C8_start_stop_noop.2.2 ⟨false, none⟩).2 rfl⟩

/-!
### C9 — force_capture is state-frame-preserving
-/

/-- C9: `force_capture` (both monitor variants) returns exactly the result
of running its capture strategy and leaves the monitor state untouched: it
never updates `last_text` or `last_change_time`, fires no callback, and
`get_last_text` is the same before and after — including when the captured
text is new and non-empty, since the state component is the identity for
every `st` and every capture outcome. -/
theorem C9_force_capture_frame (st : MonState) (env : CaptureEnv)
    (clip0 editorText : String) (o : ClipStepOracle) :
    (force_capture st env).2.1 = st ∧
    get_last_text (force_capture st env).2.1 = get_last_text st ∧
    (force_capture st env).2.2 = [] ∧
    (force_capture st env).1 = capture_text_smart env ∧
    (TextMonitor_force_capture st clip0 editorText o).2.1 = st ∧
    (TextMonitor_force_capture st clip0 editorText o).2.2 = [] := by
  exact ⟨rfl, rfl, rfl, rfl, rfl, rfl⟩

/-!
### C10 — show_errors renders at most five errors, two markers each
-/

/-- Rendering a list of errors appends exactly two marker ids per error. -/
theorem OverlayWindow.renderFold_markers_length (l : List OverlayWindow.GError)
    (acc : OverlayWindow.ErrState) :
    ((l.foldl OverlayWindow.renderError acc).error_markers).length =
      acc.error_markers.length + 2 * l.length := by
  induction l generalizing acc with
  | nil => simp
  | cons e rest ih =>
    rw [List.foldl_cons, ih]
    simp [OverlayWindow.renderError]
    omega

/-- Deleting markers does not change the canvas id allocator. -/
theorem OverlayWindow.foldl_delete_nextId (ms : List Nat)
    (c : OverlayWindow.CanvasState) :
    (ms.foldl OverlayWindow.canvas_delete c).nextId = c.nextId := by
  induction ms generalizing c with
  | nil => rfl
  | cons a rest ih => rw [List.foldl_cons, ih] ; rfl

/-- Anything alive after deleting the ids in `ms` was alive before and is
not one of the deleted ids. -/
theorem OverlayWindow.foldl_delete_not_mem (ms : List Nat)
    (c : OverlayWindow.CanvasState) (m : Nat)
    (hm : m ∈ (ms.foldl OverlayWindow.canvas_delete c).live) :
    m ∈ c.live ∧ m ∉ ms := by
  induction ms generalizing c with
  | nil => simpa using hm
  | cons a rest ih =>
    rw [List.foldl_cons] at hm
    rcases ih (OverlayWindow.canvas_delete c a) hm with ⟨h3, h4⟩
    simp only [OverlayWindow.canvas_delete, List.mem_filter,
      decide_eq_true_eq] at h3
    refine ⟨h3.1, ?_⟩
    simp [h3.2, h4]

/-- Anything alive after rendering was alive before or is a freshly
allocated id. -/
theorem OverlayWindow.renderFold_live_mem (l : List OverlayWindow.GError)
    (acc : OverlayWindow.ErrState) (m : Nat)
    (hm : m ∈ (l.foldl OverlayWindow.renderError acc).canvas.live) :
    m ∈ acc.canvas.live ∨ acc.canvas.nextId ≤ m := by
  induction l generalizing acc with
  | nil => exact Or.inl (by simpa using hm)
  | cons e rest ih =>
    rw [List.foldl_cons] at hm
    rcases ih (OverlayWindow.renderError acc e) hm with h | h
    · have hl : (OverlayWindow.renderError acc e).canvas.live =
          (acc.canvas.live ++ [acc.canvas.nextId]) ++ [acc.canvas.nextId + 1] := rfl
      rw [hl] at h
      rcases List.mem_append.mp h with h2 | h2
      · rcases List.mem_append.mp h2 with h3 | h3
        · exact Or.inl h3
        · exact Or.inr (le_of_eq (List.mem_singleton.mp h3).symm)
      · exact Or.inr (by have h4 := List.mem_singleton.mp h2 ; omega)
    · have hn : (OverlayWindow.renderError acc e).canvas.nextId =
          acc.canvas.nextId + 1 + 1 := rfl
      rw [hn] at h
      exact Or.inr (by omega)

/-- C10: `show_errors` first deletes every previously recorded marker from
the canvas, then renders at most the first five errors with two canvas
items each (the red underline and the type label), so afterwards the
marker list holds exactly `2 * min errors.length 5` ids and no marker of
the previous call is still on the canvas — markers never accumulate
across calls (the count depends only on the current `errors` argument,
the previous state being universally quantified).  The well-formedness
hypothesis says recorded markers were allocated by the canvas. -/
theorem C10_show_errors_markers (st : OverlayWindow.ErrState)
    (errors : List OverlayWindow.GError)
    (wf : ∀ m ∈ st.error_markers, m < st.canvas.nextId) :
    (OverlayWindow.show_errors st errors).error_markers.length =
      2 * min errors.length 5 ∧
    ∀ m ∈ st.error_markers,
      m ∉ (OverlayWindow.show_errors st errors).canvas.live := by
  constructor
  · have h := OverlayWindow.renderFold_markers_length (errors.take 5)
      (OverlayWindow.clear_errors st)
    rw [OverlayWindow.show_errors, h]
    simp [OverlayWindow.clear_errors, List.length_take, Nat.min_comm]
  · intro m hm hlive
    rw [OverlayWindow.show_errors] at hlive
    rcases OverlayWindow.renderFold_live_mem _ _ _ hlive with h | h
    · have h2 := OverlayWindow.foldl_delete_not_mem st.error_markers
        st.canvas m (by simpa [OverlayWindow.clear_errors] using h)
      exact h2.2 hm
    · rw [show (OverlayWindow.clear_errors st).canvas =
          st.error_markers.foldl OverlayWindow.canvas_delete st.canvas from rfl,
        OverlayWindow.foldl_delete_nextId] at h
      exact absurd h (not_le.mpr (wf m hm))

/-- C10 witness: starting from a canvas holding the two markers of a
previous call, showing seven errors leaves exactly ten marker ids and the
old marker 0 is gone from the canvas. -/
theorem C10_show_errors_markers_witness :
    (OverlayWindow.show_errors ⟨⟨2, [0, 1]⟩, [0, 1]⟩
        (List.replicate 7 ⟨"spelling"⟩)).error_markers.length = 10 ∧
    (0 : Nat) ∉ (OverlayWindow.show_errors ⟨⟨2, [0, 1]⟩, [0, 1]⟩
        (List.replicate 7 ⟨"spelling"⟩)).canvas.live := by
  have h := C10_show_errors_markers ⟨⟨2, [0, 1]⟩, [0, 1]⟩
      (List.replicate 7 ⟨"spelling"⟩) (by decide)
  exact ⟨h.1.trans (by decide), h.2 0 (by decide)⟩

end Solidly
